import Mathlib

/-!
Verification of the rule-driven grid simulation core of the Basis puzzle game.

The development shallowly embeds the JavaScript sources:
  * `src/systems/RuleManager.js`  — the rule store (named boolean flags, history, undo);
  * `src/systems/GridPhysics.js`  — the movement/collision resolver and push resolver;
  * `src/scenes/Game.js`          — the socket → special-wall unlock linkage.

Modelling conventions:
  * JS strings are Lean `String`s; `toUpperCase`/`toLowerCase` are modelled by
    character-wise ASCII case mapping (all rule identifiers are ASCII).
  * The JS object `this.rules` (a property bag) is an association list
    `List (String × Bool)` with property test / read / write helpers.
  * JS numbers used as grid coordinates are `Int` (moves may target negative cells).
  * `Date.now()` is impure, so the current time is passed to `setRule` explicitly;
    no claim depends on its value.
  * Early-`return` sequences are translated to nested `if`/`match` expressions.
-/

namespace BasisGame

/-- ASCII fact: `toNat` of `Char.ofNat n` for `n` below the surrogate range is `n`. -/
theorem char_toNat_ofNat {n : Nat} (h1 : n < 0xd800) : (Char.ofNat n).toNat = n := by
  have hv : n.isValidChar := Or.inl h1
  simp only [Char.ofNat, hv, dif_pos]
  simp [Char.ofNatAux, Char.toNat, UInt32.toNat, BitVec.toNat_ofNatLt]

/-- Rebuilding a character from its code point gives the character back. -/
theorem char_ofNat_toNat (c : Char) : Char.ofNat c.toNat = c := by
  have hv : c.toNat.isValidChar := c.valid
  simp only [Char.ofNat, hv, dif_pos]
  apply Char.eq_of_val_eq
  simp [Char.ofNatAux, Char.toNat]
  apply UInt32.eq_of_val_eq
  apply Fin.ext
  simp [Char.toNat, UInt32.toNat]

/-- Uppercasing a character twice is the same as uppercasing it once. -/
theorem char_toUpper_toUpper (c : Char) : c.toUpper.toUpper = c.toUpper := by
  unfold Char.toUpper
  by_cases h : 97 ≤ c.toNat ∧ c.toNat ≤ 122
  · rw [if_pos h]
    have h2 : (Char.ofNat (c.toNat - 32)).toNat = c.toNat - 32 := char_toNat_ofNat (by omega)
    rw [if_neg (by omega)]
  · rw [if_neg h, if_neg h]

/-- Lowercasing after uppercasing is plain lowercasing. -/
theorem char_toLower_toUpper (c : Char) : c.toUpper.toLower = c.toLower := by
  unfold Char.toUpper Char.toLower
  by_cases h : 97 ≤ c.toNat ∧ c.toNat ≤ 122
  · rw [if_pos h]
    have h2 : (Char.ofNat (c.toNat - 32)).toNat = c.toNat - 32 := char_toNat_ofNat (by omega)
    rw [if_pos (by omega), if_neg (by omega), h2]
    have h3 : c.toNat - 32 + 32 = c.toNat := by omega
    rw [h3, char_ofNat_toNat]
  · rw [if_neg h]

/-- Uppercasing after lowercasing is plain uppercasing. -/
theorem char_toUpper_toLower (c : Char) : c.toLower.toUpper = c.toUpper := by
  unfold Char.toUpper Char.toLower
  by_cases h : 65 ≤ c.toNat ∧ c.toNat ≤ 90
  · rw [if_pos h]
    have h2 : (Char.ofNat (c.toNat + 32)).toNat = c.toNat + 32 := char_toNat_ofNat (by omega)
    rw [if_pos (by omega), if_neg (by omega), h2]
    have h3 : c.toNat + 32 - 32 = c.toNat := by omega
    rw [h3, char_ofNat_toNat]
  · rw [if_neg h]

/-- JS `String.prototype.toUpperCase`, for the ASCII rule identifiers used by the game. -/
def jsToUpperCase (s : String) : String := ⟨s.data.map Char.toUpper⟩

/-- JS `String.prototype.toLowerCase`, for the ASCII rule identifiers used by the game. -/
def jsToLowerCase (s : String) : String := ⟨s.data.map Char.toLower⟩

/-- Uppercasing a string is idempotent. -/
theorem jsToUpperCase_idem (s : String) :
    jsToUpperCase (jsToUpperCase s) = jsToUpperCase s := by
  unfold jsToUpperCase
  apply congrArg String.mk
  rw [List.map_map]
  exact List.map_congr_left (fun c _ => char_toUpper_toUpper c)

/-- Lowercasing an uppercased string is the same as lowercasing the original. -/
theorem jsToLowerCase_jsToUpperCase (s : String) :
    jsToLowerCase (jsToUpperCase s) = jsToLowerCase s := by
  unfold jsToUpperCase jsToLowerCase
  apply congrArg String.mk
  rw [List.map_map]
  exact List.map_congr_left (fun c _ => char_toLower_toUpper c)

/-- Uppercasing a lowercased string is the same as uppercasing the original. -/
theorem jsToUpperCase_jsToLowerCase (s : String) :
    jsToUpperCase (jsToLowerCase s) = jsToUpperCase s := by
  unfold jsToUpperCase jsToLowerCase
  apply congrArg String.mk
  rw [List.map_map]
  exact List.map_congr_left (fun c _ => char_toUpper_toLower c)

/-- JS `Object.prototype.hasOwnProperty` on a property bag of booleans. -/
def hasOwnProperty (obj : List (String × Bool)) (k : String) : Bool :=
  obj.any (fun p => p.1 == k)

/-- Reading property `k` of a JS property bag; an absent property is `undefined`,
which is falsy everywhere `RuleManager` reads it, so it is modelled as `false`. -/
def objGet (obj : List (String × Bool)) (k : String) : Bool :=
  match obj.find? (fun p => p.1 == k) with
  | some p => p.2
  | none => false

/-- Writing property `k` of a JS property bag (`obj[k] = v`): updates the
property if present, appends it otherwise. -/
def objSet (obj : List (String × Bool)) (k : String) (v : Bool) : List (String × Bool) :=
  if hasOwnProperty obj k then
    obj.map (fun p => if p.1 == k then (p.1, v) else p)
  else
    obj ++ [(k, v)]

/-- One record of `RuleManager.history` (`{ruleId, previousValue, newValue, timestamp, source}`). -/
structure HistoryRecord where
  ruleId : String
  previousValue : Bool
  newValue : Bool
  timestamp : Nat
  source : String
deriving DecidableEq

/-- The state of `RuleManager`: the `rules` property bag and the change history.
(The event-emitter and the `activeEffects` visual metadata are notification
plumbing with no effect on any rule value and are not modelled.) -/
structure RuleState where
  rules : List (String × Bool)
  history : List HistoryRecord
deriving DecidableEq

/-- The `this.rules` table built by the `RuleManager` constructor, in source order. -/
def initialRules : List (String × Bool) :=
  [("WALL_IS_AIR", false),
   ("BRICK_IS_AIR", false),
   ("WOOD_IS_AIR", false),
   ("IRON_IS_AIR", false),
   ("STEEL_IS_AIR", false),
   ("EMERALD_IS_AIR", false),
   ("GOLD_IS_AIR", false),
   ("DIAMOND_IS_AIR", false),
   ("LAPIS_IS_AIR", false),
   ("QUARTZ_IS_AIR", false),
   ("STEEL_TO_EMERALD", false),
   ("IRON_TO_STEEL", false),
   ("STEEL_TO_IRON", false),
   ("WOOD_TO_IRON", false),
   ("IRON_TO_WOOD", false),
   ("LAPIS_TO_DIAMOND", false),
   ("GOLD_TO_LAPIS", false),
   ("BRICK_SHUFFLE", false),
   ("WOOD_SHUFFLE", false),
   ("IRON_SHUFFLE", false),
   ("STEEL_SHUFFLE", false),
   ("PLAYER_IS_FAST", false),
   ("PLAYER_IS_SLOW", false),
   ("PUSH_IS_DISABLED", false),
   ("GATE_IS_OPEN", false),
   ("FRIEND_IS_GOAL", true),
   ("PLAYER_IS_GHOST", false)]

/-- A freshly constructed `RuleManager`: default rule values, empty history. -/
def initialRuleState : RuleState := ⟨initialRules, []⟩

/-- `RuleManager.isRuleActive(ruleId)`: uppercase the identifier, read the rule
table if the identifier is a known property, otherwise try the two legacy
snake-case aliases, otherwise report `false` (with a console warning only). -/
def isRuleActive (r : RuleState) (ruleId : String) : Bool :=
  let normalizedId := jsToUpperCase ruleId
  if hasOwnProperty r.rules normalizedId then
    objGet r.rules normalizedId
  else
    let legacyId := jsToLowerCase ruleId
    if legacyId == "wall_is_air" then objGet r.rules "WALL_IS_AIR"
    else if legacyId == "player_is_fast" then objGet r.rules "PLAYER_IS_FAST"
    else false

/-- `RuleManager.setRule(ruleId, isActive, options)`: rejects unknown identifiers
(returns `false`, no mutation), no-ops on an unchanged value (returns `false`),
otherwise updates the rule, appends a history record and returns `true`.
`options.source` is the `source` argument; `Date.now()` is the `now` argument. -/
def setRule (r : RuleState) (ruleId : String) (isActive : Bool)
    (source : Option String) (now : Nat) : RuleState × Bool :=
  let normalizedId := jsToUpperCase ruleId
  if hasOwnProperty r.rules normalizedId then
    let previousValue := objGet r.rules normalizedId
    if previousValue == isActive then (r, false)
    else
      ({ rules := objSet r.rules normalizedId isActive,
         history := r.history ++
           [{ ruleId := normalizedId, previousValue := previousValue,
              newValue := isActive, timestamp := now,
              source := source.getD "unknown" }] }, true)
  else (r, false)

/-- `RuleManager.undoLastChange()`: returns `false` on empty history, otherwise
pops the most recent record and writes the recorded previous value back. -/
def undoLastChange (r : RuleState) : RuleState × Bool :=
  if r.history.isEmpty then (r, false)
  else
    match r.history.getLast? with
    | none => (r, false)
    | some lastChange =>
        ({ rules := objSet r.rules lastChange.ruleId lastChange.previousValue,
           history := r.history.dropLast }, true)

/-- A wall entity as built by `Game.createWalls`: grid cell plus wall type
(brick, wood, iron, steel, or a gem variant). Sprite data is presentation only. -/
structure Wall where
  gridX : Int
  gridY : Int
  type : String
deriving DecidableEq

/-- A gate entity as built by `Game.createGates`: grid cell, identifier, open flag. -/
structure Gate where
  gridX : Int
  gridY : Int
  id : String
  isOpen : Bool
deriving DecidableEq

/-- A pushable block entity: grid cell plus identifier. -/
structure Pushable where
  gridX : Int
  gridY : Int
  id : String
deriving DecidableEq

/-- The friend (goal) NPC: its grid cell (`friend.isAt(x, y)` compares to it). -/
structure Friend where
  gridX : Int
  gridY : Int
deriving DecidableEq

/-- A special wall entity as built by `Game.createSpecialWalls`: grid cell,
identifier, unlocked flag. -/
structure SpecialWall where
  gridX : Int
  gridY : Int
  id : String
  isUnlocked : Bool
deriving DecidableEq

/-- The state of `GridPhysics`: grid dimensions, the registered entity lists and
the rule manager reference (`null` until `Game` wires one in, hence `Option`).
The `specialWalls` field is modelled from the spec: `Game.registerEntitiesWithPhysics`
calls `gridPhysics.registerSpecialWalls(...)` and `Game.unlockSpecialWall` calls
`gridPhysics.removeSpecialWall(...)`, but both methods are absent from the
`GridPhysics.js` under `src/`; per spec §4.4 a registered special wall takes part
in wall collision until it is removed. -/
structure GridPhysicsState where
  gridWidth : Int
  gridHeight : Int
  walls : List Wall
  gates : List Gate
  pushables : List Pushable
  friend : Option Friend
  specialWalls : List SpecialWall
  ruleManager : Option RuleState
deriving DecidableEq

/-- The guarded rule query `this.ruleManager && this.ruleManager.isRuleActive(id)`:
a missing rule manager reads as inactive. -/
def managerRuleActive (rm : Option RuleState) (ruleId : String) : Bool :=
  match rm with
  | none => false
  | some r => isRuleActive r ruleId

/-- `GridPhysics.isWallAt(gridX, gridY)`: whether a registered wall occupies the cell. -/
def isWallAt (g : GridPhysicsState) (x y : Int) : Bool :=
  g.walls.any (fun w => w.gridX == x && w.gridY == y)

/-- Modelled from the spec: whether a registered (not yet removed) special wall
occupies the cell. Special-wall tracking is missing from `src`'s `GridPhysics.js`
(only its callers in `Game.js` are present). -/
def isSpecialWallAt (g : GridPhysicsState) (x y : Int) : Bool :=
  g.specialWalls.any (fun w => w.gridX == x && w.gridY == y)

/-- Modelled from the spec: the wall-collision test used by the resolver —
`src`'s `isWallAt` extended with the registered special walls, which per spec
§4.4 block like walls until `removeSpecialWall` deletes them. -/
def wallCollisionAt (g : GridPhysicsState) (x y : Int) : Bool :=
  isWallAt g x y || isSpecialWallAt g x y

/-- `GridPhysics.getGateAt(gridX, gridY)`: the gate at the cell, `null` if none
or if the gate is already open. -/
def getGateAt (g : GridPhysicsState) (x y : Int) : Option Gate :=
  g.gates.find? (fun gate => gate.gridX == x && gate.gridY == y && !gate.isOpen)

/-- `GridPhysics.getPushableAt(gridX, gridY)`: the pushable at the cell, if any. -/
def getPushableAt (g : GridPhysicsState) (x y : Int) : Option Pushable :=
  g.pushables.find? (fun p => p.gridX == x && p.gridY == y)

/-- `this.friend && this.friend.isAt && this.friend.isAt(toX, toY)`. -/
def friendIsAt (f : Option Friend) (x y : Int) : Bool :=
  match f with
  | none => false
  | some fr => fr.gridX == x && fr.gridY == y

/-- Result of `GridPhysics.canPush`: `{allowed: false, reason}` or
`{allowed: true, targetX, targetY}`. -/
inductive PushResult where
  | denied (reason : String)
  | ok (targetX targetY : Int)
deriving DecidableEq

/-- The `allowed` field of a `canPush` result. -/
def PushResult.allowed : PushResult → Bool
  | .denied _ => false
  | .ok _ _ => true

/-- `GridPhysics.canPush(pushableX, pushableY, direction)`: whether the cell
beyond the pushable is free (in bounds, no blocking wall, no closed gate unless
all gates are open, no other pushable). -/
def canPush (g : GridPhysicsState) (pushableX pushableY dirX dirY : Int) : PushResult :=
  let targetX := pushableX + dirX
  let targetY := pushableY + dirY
  if targetX < 0 ∨ targetX ≥ g.gridWidth ∨ targetY < 0 ∨ targetY ≥ g.gridHeight then
    .denied "out_of_bounds"
  else
    let wallIsAir := managerRuleActive g.ruleManager "WALL_IS_AIR"
    if !wallIsAir && wallCollisionAt g targetX targetY then
      .denied "wall"
    else
      let allGatesOpen := managerRuleActive g.ruleManager "GATE_IS_OPEN"
      let gateBlocks :=
        match getGateAt g targetX targetY with
        | some gate => !gate.isOpen && !allGatesOpen
        | none => false
      if gateBlocks then
        .denied "gate"
      else if (getPushableAt g targetX targetY).isSome then
        .denied "another_pushable"
      else
        .ok targetX targetY

/-- The `action` of a `canMoveTo` result, with the data each return site carries. -/
inductive MoveAction where
  | move
  | push (pushable : Pushable) (dirX dirY targetX targetY : Int)
  | blocked (reason : String)
  | gate (gate : Gate)
  | win (friend : Friend)
deriving DecidableEq

/-- Result of `GridPhysics.canMoveTo`: the `allowed` flag and the action. -/
structure MoveResult where
  allowed : Bool
  action : MoveAction
deriving DecidableEq

/-- Step 6 of `canMoveTo` (pushable collision): skipped in ghost mode; a pushable
met by the player is pushed if possible, blocks otherwise; any other mover
falls through to the `move` outcome. -/
def canMoveToPushableCheck (g : GridPhysicsState) (fromX fromY toX toY : Int)
    (entityType : String) (isGhost : Bool) : MoveResult :=
  if !isGhost then
    let pushDisabled := managerRuleActive g.ruleManager "PUSH_IS_DISABLED"
    match getPushableAt g toX toY with
    | some pushable =>
        if entityType == "player" then
          if pushDisabled then ⟨false, .blocked "push_disabled"⟩
          else
            let dirX := toX - fromX
            let dirY := toY - fromY
            match canPush g toX toY dirX dirY with
            | .ok targetX targetY => ⟨true, .push pushable dirX dirY targetX targetY⟩
            | .denied _ => ⟨false, .blocked "push_failed"⟩
        else ⟨true, .move⟩
    | none => ⟨true, .move⟩
  else ⟨true, .move⟩

/-- Step 5 of `canMoveTo` (win check): the friend at the destination wins when
`FRIEND_IS_GOAL` is active (or no rule manager is wired); otherwise fall through
to the pushable check. -/
def canMoveToFriendCheck (g : GridPhysicsState) (fromX fromY toX toY : Int)
    (entityType : String) (isGhost : Bool) : MoveResult :=
  match g.friend with
  | some fr =>
      if fr.gridX == toX && fr.gridY == toY then
        if g.ruleManager.isNone || managerRuleActive g.ruleManager "FRIEND_IS_GOAL" then
          ⟨true, .win fr⟩
        else canMoveToPushableCheck g fromX fromY toX toY entityType isGhost
      else canMoveToPushableCheck g fromX fromY toX toY entityType isGhost
  | none => canMoveToPushableCheck g fromX fromY toX toY entityType isGhost

/-- `GridPhysics.canMoveTo(fromX, fromY, toX, toY, entityType)`: the movement /
collision resolver. Checks, in order: grid bounds; ghost mode; wall collision;
gate collision; win; pushable collision; default `move`. -/
def canMoveTo (g : GridPhysicsState) (fromX fromY toX toY : Int)
    (entityType : String) : MoveResult :=
  if toX < 0 ∨ toX ≥ g.gridWidth ∨ toY < 0 ∨ toY ≥ g.gridHeight then
    ⟨false, .blocked "out_of_bounds"⟩
  else
    let isGhost := managerRuleActive g.ruleManager "PLAYER_IS_GHOST"
    let wallIsAir := managerRuleActive g.ruleManager "WALL_IS_AIR"
    if !isGhost && (!wallIsAir && wallCollisionAt g toX toY) then
      ⟨false, .blocked "wall"⟩
    else
      let allGatesOpen := managerRuleActive g.ruleManager "GATE_IS_OPEN"
      let gateHit : Option Gate :=
        if !isGhost then
          match getGateAt g toX toY with
          | some gate => if !gate.isOpen && !allGatesOpen then some gate else none
          | none => none
        else none
      match gateHit with
      | some gate => ⟨false, .gate gate⟩
      | none => canMoveToFriendCheck g fromX fromY toX toY entityType isGhost

/-- The `{row, col}` reference a socket may carry to the special wall it unlocks. -/
structure SocketLink where
  row : Int
  col : Int
deriving DecidableEq

/-- A socket entity as built by `Game.createSockets`: grid cell, identifier,
filled flag, and the optional link to a specific special wall. -/
structure Socket where
  gridX : Int
  gridY : Int
  id : String
  isFilled : Bool
  unlocksWall : Option SocketLink
deriving DecidableEq

/-- The part of the `Game` scene state the socket/unlock linkage touches:
the socket and special-wall lists and the physics system. -/
structure GameState where
  sockets : List Socket
  specialWalls : List SpecialWall
  gridPhysics : GridPhysicsState
deriving DecidableEq

/-- JS object identity for the special-wall entities (distinct entities built
from level data; identity is modelled by cell and id, ignoring the mutable flag). -/
def sameSpecialWall (a b : SpecialWall) : Bool :=
  a.gridX == b.gridX && a.gridY == b.gridY && a.id == b.id

/-- JS object identity for socket entities (cell and id, ignoring the mutable flag). -/
def sameSocket (a b : Socket) : Bool :=
  a.gridX == b.gridX && a.gridY == b.gridY && a.id == b.id

/-- Modelled from the spec: `GridPhysics.registerSpecialWalls(walls)` — called by
`Game.registerEntitiesWithPhysics` but missing from `src`'s `GridPhysics.js`;
it stores the special-wall list for wall-collision consideration. -/
def registerSpecialWalls (g : GridPhysicsState) (ws : List SpecialWall) : GridPhysicsState :=
  { g with specialWalls := ws }

/-- Modelled from the spec: `GridPhysics.removeSpecialWall(wall)` — called by
`Game.unlockSpecialWall` but missing from `src`'s `GridPhysics.js`; per spec
§4.4 it removes the wall from wall-collision consideration permanently
("equivalent to deleting it from the Wall registry"). -/
def removeSpecialWall (g : GridPhysicsState) (w : SpecialWall) : GridPhysicsState :=
  { g with specialWalls := g.specialWalls.filter (fun x => !sameSpecialWall x w) }

/-- `Game.unlockSpecialWall(wall)`: no-op on an already-unlocked wall; otherwise
sets `isUnlocked`, plays effects (presentation only) and removes the wall from
physics collision. -/
def unlockSpecialWall (st : GameState) (w : SpecialWall) : GameState :=
  if w.isUnlocked then st
  else
    { st with
      specialWalls := st.specialWalls.map
        (fun x => if sameSpecialWall x w then { x with isUnlocked := true } else x),
      gridPhysics := removeSpecialWall st.gridPhysics w }

/-- `Game.unlockSpecialWalls()`: `this.specialWalls.forEach(w => this.unlockSpecialWall(w))`.
Each distinct entity is visited once, so iterating the entity values as they
were when the loop started is faithful. -/
def unlockSpecialWalls (st : GameState) : GameState :=
  st.specialWalls.foldl (fun acc w => unlockSpecialWall acc w) st

/-- `Game.activateSocket(socket, pushable)`: marks the socket filled, then either
unlocks its specifically linked special wall (if any, found by `{row, col}`) or,
with no link, unlocks every special wall once all sockets are filled. -/
def activateSocket (st : GameState) (socket : Socket) : GameState :=
  let st1 : GameState :=
    { st with sockets := (st.sockets.map
        (fun s => if sameSocket s socket then { s with isFilled := true } else s)) }
  match socket.unlocksWall with
  | some link =>
      match st1.specialWalls.find? (fun w => w.gridY == link.row && w.gridX == link.col) with
      | some linkedWall =>
          if !linkedWall.isUnlocked then unlockSpecialWall st1 linkedWall else st1
      | none => st1
  | none =>
      if st1.sockets.all (fun s => s.isFilled) then unlockSpecialWalls st1 else st1

/-- `Game.checkSocketActivation(pushable, newX, newY)`: a relocated pushable
landing on a not-yet-filled socket activates it. -/
def checkSocketActivation (st : GameState) (newX newY : Int) : GameState :=
  match st.sockets.find? (fun s => s.gridX == newX && s.gridY == newY && !s.isFilled) with
  | some socket => activateSocket st socket
  | none => st

/-- The whole level-session state visible to a resolution call: the game scene
state (sockets, special walls, physics with its walls/gates/pushables/friend and
the rule store) plus the mover's cell. -/
structure SessionState where
  game : GameState
  playerX : Int
  playerY : Int
deriving DecidableEq

/-- A `canMoveTo` call as a state transition: `canMoveTo` and every helper it
calls (`isWallAt`, `getGateAt`, `getPushableAt`, `canPush`, `isRuleActive`)
contain no assignment, so the session state after the call is the state before it. -/
def resolveCall (s : SessionState) (fromX fromY toX toY : Int)
    (entityType : String) : MoveResult × SessionState :=
  (canMoveTo s.game.gridPhysics fromX fromY toX toY entityType, s)


/-! Claim theorems. -/

/-- A 20×15 grid holding a single brick wall at cell `(1, 2)`, physics wired to
the given rule store — the grid of the spec's `BRICK_IS_AIR` test scenario. -/
def brickWallG (rm : RuleState) : GridPhysicsState :=
  ⟨20, 15, [⟨1, 2, "brick"⟩], [], [], none, [], some rm⟩

/-- C1: a wall blocks exactly when neither `WALL_IS_AIR` nor the wall type's
`<TYPE>_IS_AIR` rule is active, and in particular setting `BRICK_IS_AIR` lets
`resolve((1,1),(1,2),player)` through a brick wall at `(1,2)`. The claim states
the documented intent, but the code disagrees at exactly the scenario input:
`canMoveTo` consults only the universal `WALL_IS_AIR` rule, and the
`BRICK_IS_AIR` handler (`Game.applyWallTypeAirEffect`) only fades sprites, so
the call still returns `blocked(wall)` after `set('BRICK_IS_AIR', true)`.
This theorem evaluates the embedded code at that failing input. -/
theorem brick_is_air_has_no_physics_effect :
    canMoveTo (brickWallG initialRuleState) 1 1 1 2 "player"
      = ⟨false, .blocked "wall"⟩ ∧
    (setRule initialRuleState "BRICK_IS_AIR" true none 0).2 = true ∧
    isRuleActive (setRule initialRuleState "BRICK_IS_AIR" true none 0).1 "BRICK_IS_AIR"
      = true ∧
    canMoveTo (brickWallG (setRule initialRuleState "BRICK_IS_AIR" true none 0).1)
      1 1 1 2 "player" = ⟨false, .blocked "wall"⟩ := by
  refine ⟨by decide, by decide, by decide, by decide⟩

/-- C2: any destination cell outside the grid resolves to
`blocked(out_of_bounds)`, whatever the rule store and the entity registries hold. -/
theorem resolve_out_of_bounds (g : GridPhysicsState) (fromX fromY toX toY : Int)
    (entityType : String)
    (h : toX < 0 ∨ toX ≥ g.gridWidth ∨ toY < 0 ∨ toY ≥ g.gridHeight) :
    canMoveTo g fromX fromY toX toY entityType = ⟨false, .blocked "out_of_bounds"⟩ := by
  unfold canMoveTo
  rw [if_pos h]

/-- A ghost-mode rule store with entities of every registry, used to witness the
bounds claim under a hostile state. -/
def outOfBoundsDemoG : GridPhysicsState :=
  ⟨20, 15, [⟨1, 2, "brick"⟩], [⟨2, 2, "g1", false⟩], [⟨3, 3, "p1"⟩], some ⟨4, 4⟩,
   [⟨5, 5, "w1", false⟩], some (setRule initialRuleState "PLAYER_IS_GHOST" true none 0).1⟩

/-- Witness for C2 at the concrete cell `(-1, 1)` of a fully populated state. -/
theorem resolve_out_of_bounds_witness :
    ((-1 : Int) < 0 ∨ (-1 : Int) ≥ outOfBoundsDemoG.gridWidth ∨ (1 : Int) < 0 ∨
      (1 : Int) ≥ outOfBoundsDemoG.gridHeight) ∧
    canMoveTo outOfBoundsDemoG 1 1 (-1) 1 "player" = ⟨false, .blocked "out_of_bounds"⟩ :=
  ⟨by decide, resolve_out_of_bounds outOfBoundsDemoG 1 1 (-1) 1 "player" (by decide)⟩

/-- C5: resolution is a pure query — the session state (walls, gates, pushables,
friend, special walls in both lists, sockets, mover position, and the whole rule
store) after a `canMoveTo` call is exactly the state before it. -/
theorem resolve_is_pure (s : SessionState) (fromX fromY toX toY : Int)
    (entityType : String) :
    (resolveCall s fromX fromY toX toY entityType).2 = s ∧
    (resolveCall s fromX fromY toX toY entityType).2.game.gridPhysics.walls
      = s.game.gridPhysics.walls ∧
    (resolveCall s fromX fromY toX toY entityType).2.game.gridPhysics.gates
      = s.game.gridPhysics.gates ∧
    (resolveCall s fromX fromY toX toY entityType).2.game.gridPhysics.pushables
      = s.game.gridPhysics.pushables ∧
    (resolveCall s fromX fromY toX toY entityType).2.game.gridPhysics.friend
      = s.game.gridPhysics.friend ∧
    (resolveCall s fromX fromY toX toY entityType).2.game.gridPhysics.specialWalls
      = s.game.gridPhysics.specialWalls ∧
    (resolveCall s fromX fromY toX toY entityType).2.game.sockets = s.game.sockets ∧
    (resolveCall s fromX fromY toX toY entityType).2.game.specialWalls
      = s.game.specialWalls ∧
    (resolveCall s fromX fromY toX toY entityType).2.playerX = s.playerX ∧
    (resolveCall s fromX fromY toX toY entityType).2.playerY = s.playerY ∧
    (resolveCall s fromX fromY toX toY entityType).2.game.gridPhysics.ruleManager
      = s.game.gridPhysics.ruleManager :=
  ⟨rfl, rfl, rfl, rfl, rfl, rfl, rfl, rfl, rfl, rfl, rfl⟩

/-- C7: `undoLastChange` returns `false` and changes nothing on an empty history;
after `set('GATE_IS_OPEN', true)` on the fresh store it restores the store to
exactly its previous state (`GATE_IS_OPEN` back to `false`, history empty, every
other rule untouched) and returns `true`. -/
theorem undo_last_reverts (r : RuleState) (h : r.history = []) :
    undoLastChange r = (r, false) ∧
    undoLastChange (setRule initialRuleState "GATE_IS_OPEN" true none 0).1
      = (initialRuleState, true) ∧
    isRuleActive (setRule initialRuleState "GATE_IS_OPEN" true none 0).1 "GATE_IS_OPEN"
      = true ∧
    isRuleActive (undoLastChange (setRule initialRuleState "GATE_IS_OPEN" true none 0).1).1
      "GATE_IS_OPEN" = false ∧
    (undoLastChange (setRule initialRuleState "GATE_IS_OPEN" true none 0).1).1.history
      = [] := by
  refine ⟨?_, by decide, by decide, by decide, by decide⟩
  unfold undoLastChange
  rw [h]
  rfl

/-- Witness for C7: the fresh store has empty history, a second undo is a no-op. -/
theorem undo_last_reverts_witness :
    undoLastChange initialRuleState = (initialRuleState, false) ∧
    undoLastChange (setRule initialRuleState "GATE_IS_OPEN" true none 0).1
      = (initialRuleState, true) :=
  ⟨(undo_last_reverts initialRuleState rfl).1,
   (undo_last_reverts initialRuleState rfl).2.1⟩

/-- Under an active `PLAYER_IS_GHOST` rule, an in-bounds resolution is either a
plain `move` or a `win`: the wall, gate and pushable checks are all skipped. -/
theorem ghost_move_or_win (g : GridPhysicsState) (fromX fromY toX toY : Int)
    (entityType : String)
    (hGhost : managerRuleActive g.ruleManager "PLAYER_IS_GHOST" = true)
    (hin : ¬(toX < 0 ∨ toX ≥ g.gridWidth ∨ toY < 0 ∨ toY ≥ g.gridHeight)) :
    canMoveTo g fromX fromY toX toY entityType = ⟨true, .move⟩ ∨
    ∃ fr, canMoveTo g fromX fromY toX toY entityType = ⟨true, .win fr⟩ := by
  unfold canMoveTo
  rw [if_neg hin]
  simp only [hGhost, Bool.not_true, Bool.false_and, Bool.false_eq_true, if_false]
  unfold canMoveToFriendCheck canMoveToPushableCheck
  simp only [hGhost, Bool.not_true, Bool.false_eq_true, if_false]
  cases g.friend with
  | none => exact Or.inl rfl
  | some fr =>
      dsimp only
      by_cases hat : (fr.gridX == toX && fr.gridY == toY) = true
      · rw [if_pos hat]
        by_cases hgoal :
            (g.ruleManager.isNone || managerRuleActive g.ruleManager "FRIEND_IS_GOAL") = true
        · rw [if_pos hgoal]
          exact Or.inr ⟨fr, rfl⟩
        · rw [if_neg hgoal]
          exact Or.inl rfl
      · rw [if_neg hat]
        exact Or.inl rfl

/-- C3: with `PLAYER_IS_GHOST` active, resolution of an in-bounds destination
never yields any `blocked` outcome, never a `gate_encountered`, and never a
`push` — so a ghost mover passes walls, gates and pushables and never relocates
a pushable. -/
theorem ghost_supremacy (g : GridPhysicsState) (fromX fromY toX toY : Int)
    (entityType : String)
    (hGhost : managerRuleActive g.ruleManager "PLAYER_IS_GHOST" = true)
    (hin : ¬(toX < 0 ∨ toX ≥ g.gridWidth ∨ toY < 0 ∨ toY ≥ g.gridHeight)) :
    (∀ reason, canMoveTo g fromX fromY toX toY entityType ≠ ⟨false, .blocked reason⟩) ∧
    (∀ gt, canMoveTo g fromX fromY toX toY entityType ≠ ⟨false, .gate gt⟩) ∧
    (∀ p dX dY tX tY,
      canMoveTo g fromX fromY toX toY entityType ≠ ⟨true, .push p dX dY tX tY⟩) := by
  rcases ghost_move_or_win g fromX fromY toX toY entityType hGhost hin with h | ⟨fr, h⟩ <;>
    rw [h] <;>
    refine ⟨fun reason hc => ?_, fun gt hc => ?_, fun p dX dY tX tY hc => ?_⟩ <;>
    simp at hc

/-- A ghost-mode state whose destination cell `(1, 2)` holds a wall, a closed
gate and a pushable at once. -/
def ghostDemoG : GridPhysicsState :=
  ⟨20, 15, [⟨1, 2, "brick"⟩], [⟨1, 2, "g1", false⟩], [⟨1, 2, "p1"⟩], none, [],
   some (setRule initialRuleState "PLAYER_IS_GHOST" true none 0).1⟩

/-- Witness for C3: the ghost scenario at concrete input, instantiating the three
impossibility clauses. -/
theorem ghost_supremacy_witness :
    canMoveTo ghostDemoG 1 1 1 2 "player" ≠ ⟨false, .blocked "wall"⟩ ∧
    canMoveTo ghostDemoG 1 1 1 2 "player" ≠ ⟨false, .blocked "push_failed"⟩ ∧
    canMoveTo ghostDemoG 1 1 1 2 "player" ≠ ⟨false, .blocked "push_disabled"⟩ ∧
    canMoveTo ghostDemoG 1 1 1 2 "player" ≠ ⟨false, .gate ⟨1, 2, "g1", false⟩⟩ ∧
    canMoveTo ghostDemoG 1 1 1 2 "player" ≠ ⟨true, .push ⟨1, 2, "p1"⟩ 0 1 1 3⟩ :=
  ⟨(ghost_supremacy ghostDemoG 1 1 1 2 "player" (by decide) (by decide)).1 "wall",
   (ghost_supremacy ghostDemoG 1 1 1 2 "player" (by decide) (by decide)).1 "push_failed",
   (ghost_supremacy ghostDemoG 1 1 1 2 "player" (by decide) (by decide)).1 "push_disabled",
   (ghost_supremacy ghostDemoG 1 1 1 2 "player" (by decide) (by decide)).2.1 ⟨1, 2, "g1", false⟩,
   (ghost_supremacy ghostDemoG 1 1 1 2 "player" (by decide) (by decide)).2.2
     ⟨1, 2, "p1"⟩ 0 1 1 3⟩

/-- A gate produced by `getGateAt` is never open (the lookup filters open gates out). -/
theorem getGateAt_isOpen (g : GridPhysicsState) (x y : Int) (gate : Gate)
    (h : getGateAt g x y = some gate) : gate.isOpen = false := by
  unfold getGateAt at h
  have hp := List.find?_some h
  simp only [Bool.and_eq_true, Bool.not_eq_true'] at hp
  exact hp.2

/-- Two adjacent pushables on an otherwise empty 20×15 grid: `p1` at `(3, 3)`,
`p2` at `(4, 3)`, fresh rule store. -/
def pushChainG : GridPhysicsState :=
  ⟨20, 15, [], [], [⟨3, 3, "p1"⟩, ⟨4, 3, "p2"⟩], none, [], some initialRuleState⟩

/-- C4: `canPush` allows a push exactly when the cell beyond the pushable is in
bounds, holds no wall that the wall air-rule leaves solid, holds no closed gate
while `GATE_IS_OPEN` is inactive, and holds no other pushable; consequently a
push into a second pushable is rejected — `resolve((2,3),(3,3),player)` over two
adjacent pushables returns `blocked(push_failed)`, never chaining the push. -/
theorem canPush_characterization (g : GridPhysicsState) (px py dx dy : Int) :
    ((canPush g px py dx dy).allowed = true ↔
      (0 ≤ px + dx ∧ px + dx < g.gridWidth ∧ 0 ≤ py + dy ∧ py + dy < g.gridHeight) ∧
      ¬(wallCollisionAt g (px + dx) (py + dy) = true ∧
        managerRuleActive g.ruleManager "WALL_IS_AIR" = false) ∧
      ¬((getGateAt g (px + dx) (py + dy)).isSome = true ∧
        managerRuleActive g.ruleManager "GATE_IS_OPEN" = false) ∧
      getPushableAt g (px + dx) (py + dy) = none) ∧
    canMoveTo pushChainG 2 3 3 3 "player" = ⟨false, .blocked "push_failed"⟩ := by
  refine ⟨?_, by decide⟩
  simp only [canPush]
  by_cases h1 : px + dx < 0 ∨ px + dx ≥ g.gridWidth ∨ py + dy < 0 ∨ py + dy ≥ g.gridHeight
  · rw [if_pos h1]
    simp only [PushResult.allowed, Bool.false_eq_true, false_iff]
    rintro ⟨⟨hb1, hb2, hb3, hb4⟩, -⟩
    rcases h1 with h | h | h | h <;> omega
  · rw [if_neg h1]
    push_neg at h1
    have hbounds : 0 ≤ px + dx ∧ px + dx < g.gridWidth ∧ 0 ≤ py + dy ∧ py + dy < g.gridHeight := by
      refine ⟨by omega, h1.2.1, by omega, h1.2.2.2⟩
    by_cases h2 : (!managerRuleActive g.ruleManager "WALL_IS_AIR" &&
        wallCollisionAt g (px + dx) (py + dy)) = true
    · rw [if_pos h2]
      simp only [Bool.and_eq_true, Bool.not_eq_true'] at h2
      simp only [PushResult.allowed, Bool.false_eq_true, false_iff]
      rintro ⟨-, hwall, -⟩
      exact hwall ⟨h2.2, h2.1⟩
    · rw [if_neg h2]
      simp only [Bool.and_eq_true, Bool.not_eq_true', not_and] at h2
      cases hg : getGateAt g (px + dx) (py + dy) with
      | some gate =>
          have hOpen := getGateAt_isOpen g (px + dx) (py + dy) gate hg
          simp only [hOpen, Bool.not_false, Bool.true_and]
          by_cases h3 : managerRuleActive g.ruleManager "GATE_IS_OPEN" = true
          · simp only [h3, Bool.not_true, Bool.false_eq_true, if_false]
            by_cases h4 : (getPushableAt g (px + dx) (py + dy)).isSome = true
            · rw [if_pos h4]
              simp only [PushResult.allowed, Bool.false_eq_true, false_iff]
              rintro ⟨-, -, -, hnone⟩
              rw [hnone] at h4
              exact Bool.false_ne_true h4
            · rw [if_neg h4]
              simp only [PushResult.allowed, true_iff]
              refine ⟨hbounds, ?_, ?_, ?_⟩
              · rintro ⟨hA, hB⟩
                exact (h2 hB) hA
              · rintro ⟨-, hB⟩
                simp at hB
              · exact Option.not_isSome_iff_eq_none.mp (by simpa using h4)
          · have h3f : managerRuleActive g.ruleManager "GATE_IS_OPEN" = false :=
              Bool.eq_false_iff.mpr (fun hx => h3 hx)
            simp only [h3f, Bool.not_false, if_true]
            simp only [PushResult.allowed, Bool.false_eq_true, false_iff]
            rintro ⟨-, -, hgate, -⟩
            exact hgate ⟨rfl, trivial⟩
      | none =>
          simp only [Bool.false_eq_true, if_false]
          by_cases h4 : (getPushableAt g (px + dx) (py + dy)).isSome = true
          · rw [if_pos h4]
            simp only [PushResult.allowed, Bool.false_eq_true, false_iff]
            rintro ⟨-, -, -, hnone⟩
            rw [hnone] at h4
            exact Bool.false_ne_true h4
          · rw [if_neg h4]
            simp only [PushResult.allowed, true_iff]
            refine ⟨hbounds, ?_, ?_, ?_⟩
            · rintro ⟨hA, hB⟩
              exact (h2 hB) hA
            · rintro ⟨hA, -⟩
              simp at hA
            · exact Option.not_isSome_iff_eq_none.mp (by simpa using h4)

/-- Reading a property the bag does not have yields the falsy default. -/
theorem objGet_of_not_hasOwn {l : List (String × Bool)} {k : String}
    (h : hasOwnProperty l k = false) : objGet l k = false := by
  unfold hasOwnProperty at h
  unfold objGet
  cases hf : l.find? (fun p => p.1 == k) with
  | none => rfl
  | some p =>
      have hp := List.find?_some hf
      have hmem := List.mem_of_find?_eq_some hf
      rw [List.any_eq_false] at h
      exact absurd hp (h p hmem)

/-- C6: the rule store is strict only on writes — for an identifier whose
uppercased form is not a known rule, `get` returns `false` (never an error) and
`set` mutates nothing, appends no history and returns `false`; and both
operations uppercase the identifier first, so each behaves identically on an
identifier and on its uppercased form. -/
theorem rule_store_strictness (r : RuleState) (ruleId : String) (v : Bool)
    (src : Option String) (now : Nat) :
    (hasOwnProperty r.rules (jsToUpperCase ruleId) = false →
       isRuleActive r ruleId = false ∧ setRule r ruleId v src now = (r, false)) ∧
    isRuleActive r ruleId = isRuleActive r (jsToUpperCase ruleId) ∧
    setRule r ruleId v src now = setRule r (jsToUpperCase ruleId) v src now := by
  refine ⟨fun h => ⟨?_, ?_⟩, ?_, ?_⟩
  · unfold isRuleActive
    rw [if_neg (by rw [h]; exact Bool.false_ne_true)]
    by_cases hw : (jsToLowerCase ruleId == "wall_is_air") = true
    · rw [if_pos hw]
      have heq : jsToUpperCase ruleId = "WALL_IS_AIR" := by
        have hlow : jsToLowerCase ruleId = "wall_is_air" := eq_of_beq hw
        have : jsToUpperCase (jsToLowerCase ruleId) = jsToUpperCase ruleId :=
          jsToUpperCase_jsToLowerCase ruleId
        rw [hlow] at this
        rw [← this]
        decide
      rw [heq] at h
      exact objGet_of_not_hasOwn h
    · rw [if_neg hw]
      by_cases hf : (jsToLowerCase ruleId == "player_is_fast") = true
      · rw [if_pos hf]
        have heq : jsToUpperCase ruleId = "PLAYER_IS_FAST" := by
          have hlow : jsToLowerCase ruleId = "player_is_fast" := eq_of_beq hf
          have : jsToUpperCase (jsToLowerCase ruleId) = jsToUpperCase ruleId :=
            jsToUpperCase_jsToLowerCase ruleId
          rw [hlow] at this
          rw [← this]
          decide
        rw [heq] at h
        exact objGet_of_not_hasOwn h
      · rw [if_neg hf]
  · unfold setRule
    rw [if_neg (by rw [h]; exact Bool.false_ne_true)]
  · unfold isRuleActive
    rw [jsToUpperCase_idem, jsToLowerCase_jsToUpperCase]
  · unfold setRule
    rw [jsToUpperCase_idem]

/-- Witness for C6: the unknown identifier `"bogus_rule"` reads as `false` and is
rejected by `set` without mutation; `get` and `set` agree on `"gate_is_open"`
and its uppercased form. -/
theorem rule_store_strictness_witness :
    isRuleActive initialRuleState "bogus_rule" = false ∧
    setRule initialRuleState "bogus_rule" true none 0 = (initialRuleState, false) ∧
    isRuleActive initialRuleState "gate_is_open"
      = isRuleActive initialRuleState (jsToUpperCase "gate_is_open") ∧
    setRule initialRuleState "gate_is_open" true none 0
      = setRule initialRuleState (jsToUpperCase "gate_is_open") true none 0 :=
  ⟨((rule_store_strictness initialRuleState "bogus_rule" true none 0).1 (by decide)).1,
   ((rule_store_strictness initialRuleState "bogus_rule" true none 0).1 (by decide)).2,
   (rule_store_strictness initialRuleState "gate_is_open" true none 0).2.1,
   (rule_store_strictness initialRuleState "gate_is_open" true none 0).2.2⟩

/-- The pushable check lets every mover that is not the player pass: whatever
occupies the cell, a non-player mover falls through to the `move` outcome. -/
theorem canMoveToPushableCheck_nonplayer (g : GridPhysicsState)
    (fromX fromY toX toY : Int) (entityType : String) (isGhost : Bool)
    (het : (entityType == "player") = false) :
    canMoveToPushableCheck g fromX fromY toX toY entityType isGhost = ⟨true, .move⟩ := by
  unfold canMoveToPushableCheck
  cases isGhost with
  | true => rfl
  | false =>
      simp only [Bool.not_false, if_true]
      cases hp : getPushableAt g toX toY with
      | none => rfl
      | some p =>
          dsimp only
          rw [if_neg (by rw [het]; exact Bool.false_ne_true)]

/-- Outcome shape of the resolver: blocked out of bounds, blocked by a wall,
a gate encounter, a win, or whatever the pushable check (step 6) decides. -/
theorem canMoveTo_outcome (g : GridPhysicsState) (fromX fromY toX toY : Int)
    (entityType : String) :
    canMoveTo g fromX fromY toX toY entityType = ⟨false, .blocked "out_of_bounds"⟩ ∨
    canMoveTo g fromX fromY toX toY entityType = ⟨false, .blocked "wall"⟩ ∨
    (∃ gt, canMoveTo g fromX fromY toX toY entityType = ⟨false, .gate gt⟩) ∨
    (∃ fr, canMoveTo g fromX fromY toX toY entityType = ⟨true, .win fr⟩) ∨
    canMoveTo g fromX fromY toX toY entityType
      = canMoveToPushableCheck g fromX fromY toX toY entityType
          (managerRuleActive g.ruleManager "PLAYER_IS_GHOST") := by
  unfold canMoveTo
  by_cases h1 : (toX < 0 ∨ toX ≥ g.gridWidth ∨ toY < 0 ∨ toY ≥ g.gridHeight)
  · rw [if_pos h1]
    exact Or.inl rfl
  · rw [if_neg h1]
    by_cases h2 : (!managerRuleActive g.ruleManager "PLAYER_IS_GHOST" &&
        (!managerRuleActive g.ruleManager "WALL_IS_AIR" && wallCollisionAt g toX toY)) = true
    · rw [if_pos h2]
      exact Or.inr (Or.inl rfl)
    · rw [if_neg h2]
      by_cases hGhost : managerRuleActive g.ruleManager "PLAYER_IS_GHOST" = true
      · simp only [hGhost, Bool.not_true, Bool.false_eq_true, if_false]
        unfold canMoveToFriendCheck
        cases g.friend with
        | none => exact Or.inr (Or.inr (Or.inr (Or.inr rfl)))
        | some fr =>
            dsimp only
            by_cases hat : (fr.gridX == toX && fr.gridY == toY) = true
            · rw [if_pos hat]
              by_cases hgoal : (g.ruleManager.isNone ||
                  managerRuleActive g.ruleManager "FRIEND_IS_GOAL") = true
              · rw [if_pos hgoal]
                exact Or.inr (Or.inr (Or.inr (Or.inl ⟨fr, rfl⟩)))
              · rw [if_neg hgoal]
                exact Or.inr (Or.inr (Or.inr (Or.inr rfl)))
            · rw [if_neg hat]
              exact Or.inr (Or.inr (Or.inr (Or.inr rfl)))
      · have hGhostF : managerRuleActive g.ruleManager "PLAYER_IS_GHOST" = false :=
          Bool.eq_false_iff.mpr (fun hx => hGhost hx)
        simp only [hGhostF, Bool.not_false, if_true]
        cases hg : getGateAt g toX toY with
        | some gate =>
            dsimp only
            by_cases hgb : (!gate.isOpen && !managerRuleActive g.ruleManager "GATE_IS_OPEN") = true
            · rw [if_pos hgb]
              exact Or.inr (Or.inr (Or.inl ⟨gate, rfl⟩))
            · rw [if_neg hgb]
              unfold canMoveToFriendCheck
              cases g.friend with
              | none => exact Or.inr (Or.inr (Or.inr (Or.inr rfl)))
              | some fr =>
                  dsimp only
                  by_cases hat : (fr.gridX == toX && fr.gridY == toY) = true
                  · rw [if_pos hat]
                    by_cases hgoal : (g.ruleManager.isNone ||
                        managerRuleActive g.ruleManager "FRIEND_IS_GOAL") = true
                    · rw [if_pos hgoal]
                      exact Or.inr (Or.inr (Or.inr (Or.inl ⟨fr, rfl⟩)))
                    · rw [if_neg hgoal]
                      exact Or.inr (Or.inr (Or.inr (Or.inr rfl)))
                  · rw [if_neg hat]
                    exact Or.inr (Or.inr (Or.inr (Or.inr rfl)))
        | none =>
            unfold canMoveToFriendCheck
            cases g.friend with
            | none => exact Or.inr (Or.inr (Or.inr (Or.inr rfl)))
            | some fr =>
                dsimp only
                by_cases hat : (fr.gridX == toX && fr.gridY == toY) = true
                · rw [if_pos hat]
                  by_cases hgoal : (g.ruleManager.isNone ||
                      managerRuleActive g.ruleManager "FRIEND_IS_GOAL") = true
                  · rw [if_pos hgoal]
                    exact Or.inr (Or.inr (Or.inr (Or.inl ⟨fr, rfl⟩)))
                  · rw [if_neg hgoal]
                    exact Or.inr (Or.inr (Or.inr (Or.inr rfl)))
                · rw [if_neg hat]
                  exact Or.inr (Or.inr (Or.inr (Or.inr rfl)))

/-- C10: a mover other than the player never receives a push-related outcome —
no `push`, no `blocked(push_failed)`, no `blocked(push_disabled)` — and a
pushable occupying an otherwise free in-bounds destination is simply ignored:
the resolution is `move`. -/
theorem nonplayer_ignores_pushables (g : GridPhysicsState) (fromX fromY toX toY : Int)
    (entityType : String) (het : (entityType == "player") = false) :
    (∀ p dX dY tX tY,
       canMoveTo g fromX fromY toX toY entityType ≠ ⟨true, .push p dX dY tX tY⟩) ∧
    canMoveTo g fromX fromY toX toY entityType ≠ ⟨false, .blocked "push_failed"⟩ ∧
    canMoveTo g fromX fromY toX toY entityType ≠ ⟨false, .blocked "push_disabled"⟩ ∧
    ((getPushableAt g toX toY).isSome = true →
      ¬(toX < 0 ∨ toX ≥ g.gridWidth ∨ toY < 0 ∨ toY ≥ g.gridHeight) →
      managerRuleActive g.ruleManager "PLAYER_IS_GHOST" = false →
      wallCollisionAt g toX toY = false →
      getGateAt g toX toY = none →
      friendIsAt g.friend toX toY = false →
      canMoveTo g fromX fromY toX toY entityType = ⟨true, .move⟩) := by
  have hmove := canMoveToPushableCheck_nonplayer g fromX fromY toX toY entityType
    (managerRuleActive g.ruleManager "PLAYER_IS_GHOST") het
  have houtcome := canMoveTo_outcome g fromX fromY toX toY entityType
  refine ⟨fun p dX dY tX tY hc => ?_, fun hc => ?_, fun hc => ?_, ?_⟩
  · rcases houtcome with h | h | ⟨gt, h⟩ | ⟨fr, h⟩ | h <;> rw [hc] at h <;>
      first
        | simp at h
        | (rw [hmove] at h; simp at h)
  · rcases houtcome with h | h | ⟨gt, h⟩ | ⟨fr, h⟩ | h <;> rw [hc] at h <;>
      first
        | simp at h
        | (rw [hmove] at h; simp at h)
  · rcases houtcome with h | h | ⟨gt, h⟩ | ⟨fr, h⟩ | h <;> rw [hc] at h <;>
      first
        | simp at h
        | (rw [hmove] at h; simp at h)
  · intro hp hin hghost hwall hgate hfr
    rw [hghost] at hmove
    unfold canMoveTo
    rw [if_neg hin]
    simp only [hghost, hwall, Bool.not_false, Bool.and_false, Bool.false_eq_true, if_false,
      Bool.true_and, if_true, hgate]
    unfold canMoveToFriendCheck
    cases hf : g.friend with
    | none =>
        dsimp only
        exact hmove
    | some fr =>
        dsimp only
        rw [hf] at hfr
        simp only [friendIsAt] at hfr
        rw [if_neg (by rw [hfr]; exact Bool.false_ne_true)]
        exact hmove

/-- An empty 20×15 grid with a single pushable at `(2, 1)` and a fresh rule store. -/
def nonPlayerDemoG : GridPhysicsState :=
  ⟨20, 15, [], [], [⟨2, 1, "p1"⟩], none, [], some initialRuleState⟩

/-- Witness for C10: a mover of kind `"enemy"` walks straight onto the pushable's
cell and never sees a push-related outcome. -/
theorem nonplayer_ignores_pushables_witness :
    canMoveTo nonPlayerDemoG 1 1 2 1 "enemy" = ⟨true, .move⟩ ∧
    canMoveTo nonPlayerDemoG 1 1 2 1 "enemy" ≠ ⟨false, .blocked "push_failed"⟩ ∧
    canMoveTo nonPlayerDemoG 1 1 2 1 "enemy" ≠ ⟨false, .blocked "push_disabled"⟩ :=
  ⟨(nonplayer_ignores_pushables nonPlayerDemoG 1 1 2 1 "enemy" (by decide)).2.2.2
     (by decide) (by decide) (by decide) (by decide) (by decide) (by decide),
   (nonplayer_ignores_pushables nonPlayerDemoG 1 1 2 1 "enemy" (by decide)).2.1,
   (nonplayer_ignores_pushables nonPlayerDemoG 1 1 2 1 "enemy" (by decide)).2.2.1⟩

/-- The pushable check never reports a wall block: its outcomes are `move`,
`push`, `blocked(push_disabled)` and `blocked(push_failed)` only. -/
theorem canMoveToPushableCheck_ne_wall (g : GridPhysicsState)
    (fromX fromY toX toY : Int) (entityType : String) (isGhost : Bool) :
    canMoveToPushableCheck g fromX fromY toX toY entityType isGhost
      ≠ ⟨false, .blocked "wall"⟩ := by
  unfold canMoveToPushableCheck
  cases isGhost with
  | true => simp
  | false =>
      simp only [Bool.not_false, if_true]
      cases getPushableAt g toX toY with
      | none => simp
      | some p =>
          dsimp only
          by_cases he : (entityType == "player") = true
          · rw [if_pos he]
            by_cases hd : managerRuleActive g.ruleManager "PUSH_IS_DISABLED" = true
            · rw [if_pos hd]
              simp
            · rw [if_neg hd]
              cases canPush g toX toY (toX - fromX) (toY - fromY) with
              | ok targetX targetY =>
                  intro h
                  simp at h
              | denied reason => simp
          · rw [if_neg he]
            simp

/-- A destination whose cell passes the wall-collision test is never blocked as a
wall, whatever else the resolver decides. -/
theorem canMoveTo_no_wall_block (g : GridPhysicsState) (fromX fromY toX toY : Int)
    (entityType : String) (hwall : wallCollisionAt g toX toY = false) :
    canMoveTo g fromX fromY toX toY entityType ≠ ⟨false, .blocked "wall"⟩ := by
  unfold canMoveTo
  by_cases h1 : (toX < 0 ∨ toX ≥ g.gridWidth ∨ toY < 0 ∨ toY ≥ g.gridHeight)
  · rw [if_pos h1]
    exact (by decide)
  · rw [if_neg h1]
    simp only [hwall, Bool.and_false, Bool.false_eq_true, if_false]
    by_cases hGhost : managerRuleActive g.ruleManager "PLAYER_IS_GHOST" = true
    · simp only [hGhost, Bool.not_true, Bool.false_eq_true, if_false]
      unfold canMoveToFriendCheck
      cases g.friend with
      | none => exact canMoveToPushableCheck_ne_wall g fromX fromY toX toY entityType _
      | some fr =>
          dsimp only
          by_cases hat : (fr.gridX == toX && fr.gridY == toY) = true
          · rw [if_pos hat]
            by_cases hgoal : (g.ruleManager.isNone ||
                managerRuleActive g.ruleManager "FRIEND_IS_GOAL") = true
            · rw [if_pos hgoal]
              intro h
              simp at h
            · rw [if_neg hgoal]
              exact canMoveToPushableCheck_ne_wall g fromX fromY toX toY entityType _
          · rw [if_neg hat]
            exact canMoveToPushableCheck_ne_wall g fromX fromY toX toY entityType _
    · have hGhostF : managerRuleActive g.ruleManager "PLAYER_IS_GHOST" = false :=
        Bool.eq_false_iff.mpr (fun hx => hGhost hx)
      simp only [hGhostF, Bool.not_false, if_true]
      cases hg : getGateAt g toX toY with
      | some gate =>
          dsimp only
          by_cases hgb : (!gate.isOpen && !managerRuleActive g.ruleManager "GATE_IS_OPEN") = true
          · rw [if_pos hgb]
            intro h
            simp at h
          · rw [if_neg hgb]
            unfold canMoveToFriendCheck
            cases g.friend with
            | none => exact canMoveToPushableCheck_ne_wall g fromX fromY toX toY entityType _
            | some fr =>
                dsimp only
                by_cases hat : (fr.gridX == toX && fr.gridY == toY) = true
                · rw [if_pos hat]
                  by_cases hgoal : (g.ruleManager.isNone ||
                      managerRuleActive g.ruleManager "FRIEND_IS_GOAL") = true
                  · rw [if_pos hgoal]
                    intro h
                    simp at h
                  · rw [if_neg hgoal]
                    exact canMoveToPushableCheck_ne_wall g fromX fromY toX toY entityType _
                · rw [if_neg hat]
                  exact canMoveToPushableCheck_ne_wall g fromX fromY toX toY entityType _
      | none =>
          unfold canMoveToFriendCheck
          cases g.friend with
          | none => exact canMoveToPushableCheck_ne_wall g fromX fromY toX toY entityType _
          | some fr =>
              dsimp only
              by_cases hat : (fr.gridX == toX && fr.gridY == toY) = true
              · rw [if_pos hat]
                by_cases hgoal : (g.ruleManager.isNone ||
                    managerRuleActive g.ruleManager "FRIEND_IS_GOAL") = true
                · rw [if_pos hgoal]
                  intro h
                  simp at h
                · rw [if_neg hgoal]
                  exact canMoveToPushableCheck_ne_wall g fromX fromY toX toY entityType _
              · rw [if_neg hat]
                exact canMoveToPushableCheck_ne_wall g fromX fromY toX toY entityType _

/-- C9: unlocking a locked special wall removes it from the physics special-wall
registry (the wall-collision consideration), and every later resolution aimed at
its cell — given the cell holds no regular wall and no other special wall —
can no longer be blocked as a wall: the unlocked wall behaves as if deleted from
the registry. The special-wall registry itself is modelled from the spec because
`registerSpecialWalls`/`removeSpecialWall` are missing from `src`'s
`GridPhysics.js`. -/
theorem special_wall_unlock_removes (st : GameState) (w : SpecialWall)
    (hw : w.isUnlocked = false)
    (hnw : isWallAt st.gridPhysics w.gridX w.gridY = false)
    (honly : ∀ x ∈ st.gridPhysics.specialWalls,
       (x.gridX == w.gridX && x.gridY == w.gridY) = true → sameSpecialWall x w = true) :
    (∀ x ∈ (unlockSpecialWall st w).gridPhysics.specialWalls, sameSpecialWall x w = false) ∧
    (∀ fromX fromY : Int, ∀ entityType : String,
       canMoveTo (unlockSpecialWall st w).gridPhysics fromX fromY w.gridX w.gridY entityType
         ≠ ⟨false, .blocked "wall"⟩) := by
  have hphys : (unlockSpecialWall st w).gridPhysics = removeSpecialWall st.gridPhysics w := by
    unfold unlockSpecialWall
    rw [if_neg (by rw [hw]; exact Bool.false_ne_true)]
  constructor
  · intro x hx
    rw [hphys] at hx
    unfold removeSpecialWall at hx
    simp only [List.mem_filter] at hx
    simpa using hx.2
  · intro fromX fromY entityType
    apply canMoveTo_no_wall_block
    rw [hphys]
    unfold wallCollisionAt
    have hw1 : isWallAt (removeSpecialWall st.gridPhysics w) w.gridX w.gridY = false := hnw
    have hw2 : isSpecialWallAt (removeSpecialWall st.gridPhysics w) w.gridX w.gridY = false := by
      unfold isSpecialWallAt removeSpecialWall
      rw [List.any_eq_false]
      intro x hx
      simp only [List.mem_filter] at hx
      intro hat
      have hsame := honly x hx.1 hat
      rw [hsame] at hx
      simp at hx
    rw [hw1, hw2]
    rfl

/-- A level state holding one locked special wall at `(5, 5)`, registered with
physics, over an otherwise empty grid. -/
def specialWallDemo : GameState :=
  ⟨[], [⟨5, 5, "w1", false⟩],
   ⟨20, 15, [], [], [], none, [⟨5, 5, "w1", false⟩], some initialRuleState⟩⟩

/-- Witness for C9: unlocking the demo special wall empties the physics registry
and a player resolution onto `(5, 5)` is no longer blocked by a wall. -/
theorem special_wall_unlock_removes_witness :
    (∀ x ∈ (unlockSpecialWall specialWallDemo ⟨5, 5, "w1", false⟩).gridPhysics.specialWalls,
       sameSpecialWall x ⟨5, 5, "w1", false⟩ = false) ∧
    canMoveTo (unlockSpecialWall specialWallDemo ⟨5, 5, "w1", false⟩).gridPhysics
      4 5 5 5 "player" ≠ ⟨false, .blocked "wall"⟩ :=
  ⟨(special_wall_unlock_removes specialWallDemo ⟨5, 5, "w1", false⟩ (by decide) (by decide)
      (by decide)).1,
   (special_wall_unlock_removes specialWallDemo ⟨5, 5, "w1", false⟩ (by decide) (by decide)
      (by decide)).2 4 5 "player"⟩

/-- Entity identity is reflexive. -/
theorem sameSpecialWall_refl (x : SpecialWall) : sameSpecialWall x x = true := by
  simp [sameSpecialWall]

/-- Unlocking a special wall never touches the socket list. -/
theorem unlockSpecialWall_sockets (st : GameState) (w : SpecialWall) :
    (unlockSpecialWall st w).sockets = st.sockets := by
  unfold unlockSpecialWall
  by_cases h : w.isUnlocked = true
  · rw [if_pos h]
  · rw [if_neg h]

/-- Folding `unlockSpecialWall` over any wall list never touches the socket list. -/
theorem foldl_unlock_sockets (l : List SpecialWall) (acc : GameState) :
    (l.foldl (fun a w => unlockSpecialWall a w) acc).sockets = acc.sockets := by
  induction l generalizing acc with
  | nil => rfl
  | cons w l ih => rw [List.foldl_cons, ih, unlockSpecialWall_sockets]

/-- Folding `unlockSpecialWall` over a list of locked walls unlocks every wall of
the accumulator that is already unlocked or matched by some wall of the list. -/
theorem foldl_unlock_all (l : List SpecialWall) (acc : GameState)
    (hl : ∀ w ∈ l, w.isUnlocked = false)
    (hinv : ∀ x ∈ acc.specialWalls,
      x.isUnlocked = true ∨ ∃ w ∈ l, sameSpecialWall x w = true) :
    ∀ x ∈ (l.foldl (fun a w => unlockSpecialWall a w) acc).specialWalls,
      x.isUnlocked = true := by
  induction l generalizing acc with
  | nil =>
      intro x hx
      rcases hinv x hx with h | ⟨w, hw, -⟩
      · exact h
      · exact absurd hw (List.not_mem_nil w)
  | cons w l ih =>
      intro x hx
      rw [List.foldl_cons] at hx
      refine ih (unlockSpecialWall acc w)
        (fun u hu => hl u (List.mem_cons_of_mem w hu)) ?_ x hx
      intro z hz
      have hwlocked : w.isUnlocked = false := hl w (List.mem_cons_self w l)
      unfold unlockSpecialWall at hz
      rw [if_neg (by rw [hwlocked]; exact Bool.false_ne_true)] at hz
      dsimp only at hz
      rw [List.mem_map] at hz
      obtain ⟨u, hu, hfu⟩ := hz
      by_cases hsame : sameSpecialWall u w = true
      · rw [if_pos hsame] at hfu
        exact Or.inl (by rw [← hfu])
      · rw [if_neg hsame] at hfu
        rcases hinv u hu with h | ⟨v, hv, hsv⟩
        · exact Or.inl (by rw [← hfu]; exact h)
        · rcases List.mem_cons.mp hv with rfl | hvl
          · exact absurd hsv hsame
          · exact Or.inr ⟨v, hvl, hfu ▸ hsv⟩

/-- Every socket entry matching the activated socket is filled after the marking map. -/
theorem marked_socket_filled (sockets : List Socket) (sk : Socket) :
    ∀ s ∈ sockets.map
        (fun s => if sameSocket s sk then { s with isFilled := true } else s),
      sameSocket s sk = true → s.isFilled = true := by
  intro s hs hsame
  rw [List.mem_map] at hs
  obtain ⟨z, hz, hfz⟩ := hs
  by_cases h : sameSocket z sk = true
  · rw [if_pos h] at hfz
    rw [← hfz]
  · rw [if_neg h] at hfz
    rw [← hfz] at hsame
    exact absurd hsame h

/-- C8: with no socket declaring a linked wall and all special walls locked,
a pushable relocation that finds no unfilled socket at its cell changes nothing;
one that finds an unfilled socket marks exactly the matching socket entries
filled (filled sockets stay filled) and leaves every special wall locked —
unless that marking fills the last socket, in which case the same call sets
`isUnlocked` on every special wall of the level. -/
theorem socket_fallback_unlocks (st : GameState) (x y : Int)
    (hlinks : ∀ s ∈ st.sockets, s.unlocksWall = none)
    (hwalls : ∀ w ∈ st.specialWalls, w.isUnlocked = false) :
    (st.sockets.find? (fun s => s.gridX == x && s.gridY == y && !s.isFilled) = none →
        checkSocketActivation st x y = st) ∧
    (∀ sk, st.sockets.find? (fun s => s.gridX == x && s.gridY == y && !s.isFilled) = some sk →
       (checkSocketActivation st x y).sockets
           = st.sockets.map
               (fun s => if sameSocket s sk then { s with isFilled := true } else s) ∧
       (∀ s ∈ (checkSocketActivation st x y).sockets,
           sameSocket s sk = true → s.isFilled = true) ∧
       ((st.sockets.map
             (fun s => if sameSocket s sk then { s with isFilled := true } else s)).all
             (fun s => s.isFilled) = false →
         (checkSocketActivation st x y).specialWalls = st.specialWalls) ∧
       ((st.sockets.map
             (fun s => if sameSocket s sk then { s with isFilled := true } else s)).all
             (fun s => s.isFilled) = true →
         (checkSocketActivation st x y).specialWalls.all
           (fun w => w.isUnlocked) = true)) := by
  unfold checkSocketActivation
  cases hf : st.sockets.find? (fun s => s.gridX == x && s.gridY == y && !s.isFilled) with
  | none =>
      exact ⟨fun _ => rfl, fun sk hsk => Option.noConfusion hsk⟩
  | some sk0 =>
      refine ⟨fun h => Option.noConfusion h, fun sk hsk => ?_⟩
      have hsk0 : sk0 = sk := Option.some.inj hsk
      subst hsk0
      have hmem : sk0 ∈ st.sockets := List.mem_of_find?_eq_some hf
      dsimp only
      unfold activateSocket
      rw [hlinks sk0 hmem]
      dsimp only
      by_cases hall :
          ((st.sockets.map
              (fun s => if sameSocket s sk0 then { s with isFilled := true } else s)).all
              (fun s => s.isFilled)) = true
      · rw [if_pos hall]
        refine ⟨?_, ?_, ?_, ?_⟩
        · unfold unlockSpecialWalls
          rw [foldl_unlock_sockets]
        · intro s hs
          unfold unlockSpecialWalls at hs
          rw [foldl_unlock_sockets] at hs
          exact marked_socket_filled st.sockets sk0 s hs
        · intro hcontra
          rw [hall] at hcontra
          exact absurd hcontra (by decide)
        · intro _
          unfold unlockSpecialWalls
          rw [List.all_eq_true]
          exact foldl_unlock_all _ _ hwalls
            (fun z hz => Or.inr ⟨z, hz, sameSpecialWall_refl z⟩)
      · rw [if_neg hall]
        refine ⟨rfl, ?_, fun _ => rfl, ?_⟩
        · intro s hs
          exact marked_socket_filled st.sockets sk0 s hs
        · intro h
          exact absurd h hall

/-- A level with two unlinked unfilled sockets, two locked special walls, and an
otherwise empty grid. -/
def socketDemo : GameState :=
  ⟨[⟨2, 2, "s1", false, none⟩, ⟨4, 4, "s2", false, none⟩],
   [⟨7, 7, "w1", false⟩, ⟨8, 8, "w2", false⟩],
   ⟨20, 15, [], [], [], none, [⟨7, 7, "w1", false⟩, ⟨8, 8, "w2", false⟩],
    some initialRuleState⟩⟩

/-- Witness for C8: filling the first socket leaves both special walls locked;
the call that fills the second (last) socket unlocks every special wall. -/
theorem socket_fallback_unlocks_witness :
    (checkSocketActivation socketDemo 2 2).specialWalls = socketDemo.specialWalls ∧
    (checkSocketActivation (checkSocketActivation socketDemo 2 2) 4 4).specialWalls.all
      (fun w => w.isUnlocked) = true :=
  ⟨(((socket_fallback_unlocks socketDemo 2 2 (by decide) (by decide)).2
      ⟨2, 2, "s1", false, none⟩ (by decide)).2.2.1 (by decide)),
   (((socket_fallback_unlocks (checkSocketActivation socketDemo 2 2) 4 4
      (by decide) (by decide)).2
      ⟨4, 4, "s2", false, none⟩ (by decide)).2.2.2 (by decide))⟩

end BasisGame
